import Mathlib

/-
Verification development for the leftwm display-server adapter (xcb backend,
with the x11rb backend's `setup_window` for comparison).

The Rust sources are embedded shallowly:
  * pure computations become Lean functions with the same structure;
  * the mutable `XCBWrap` session (managed-window registry, interactive mode,
    published properties, pointer grab) becomes a record, and every mutating
    operation becomes a function `XCBWrap -> ... -> XCBWrap`;
  * X-server queries are modelled as total reads of an `XServer` record (the
    successful-reply case; a failed query aborts the surrounding translation
    step in the source and is not the subject of any claim here, except for
    the `unimplemented!()` panic in `can_send_xevent_atom`, which is modelled
    explicitly by the `XCBOutcome.panicked` constructor);
  * the handful of model types that live in `leftwm-core/src/models` (not part
    of the provided sources) are modelled from the specification and carry a
    doc comment saying so.
Whenever a definition deviates in shape from the Rust it embeds (e.g. an
if-chain standing in for a `match` with guards), a comment points back to the
source location.
-/

namespace LeftWM

/-- Modelled from the spec: `WindowHandle` lives in `leftwm-core/src/models`
(not under the provided sources). "Opaque, backend-tagged identifier;
polymorphic over backend variants (one per display-server backend, plus a
test-only variant). Equality is by (backend-tag, native id)" (spec section 3). -/
inductive WindowHandle where
  | XlibHandle (w : Nat)
  | XCBHandle (w : Nat)
  | X11rbHandle (w : Nat)
  | MockHandle (w : Nat)
deriving DecidableEq, Repr

/-- `WindowHandle::xcb_handle` — the native id when the handle is an xcb one. -/
def WindowHandle.xcb_handle : WindowHandle → Option Nat
  | .XCBHandle w => some w
  | _ => none

/-- Modelled from the spec: `Mode` lives in `leftwm-core/src/models`. The
interactive-session state machine value (spec section 3). -/
inductive Mode where
  | Normal
  | ReadyToMove (h : WindowHandle)
  | MovingWindow (h : WindowHandle)
  | ReadyToResize (h : WindowHandle)
  | ResizingWindow (h : WindowHandle)
deriving DecidableEq, Repr

/-- Modelled from the spec: `WindowType` lives in `leftwm-core/src/models`.
Closed set, defaults to Normal (spec section 3). -/
inductive WindowType where
  | Normal
  | Dialog
  | Dock
  | Desktop
  | Toolbar
  | Menu
  | Utility
  | Splash
deriving DecidableEq, Repr

/-- Modelled from the spec: `WindowState` lives in `leftwm-core/src/models`.
Set-valued flags (spec section 3). -/
inductive WindowState where
  | Modal
  | Sticky
  | MaximizedVert
  | MaximizedHorz
  | Shaded
  | SkipTaskbar
  | SkipPager
  | Hidden
  | Fullscreen
  | Above
  | Below
deriving DecidableEq, Repr

/-- Modelled from the spec: the configured focus behaviour ("sloppy vs
click-to-focus vs other", spec section 6). -/
inductive FocusBehaviour where
  | Sloppy
  | ClickTo
  | Driven
deriving DecidableEq, Repr

/-- `FocusBehaviour::is_sloppy`. -/
def FocusBehaviour.is_sloppy : FocusBehaviour → Bool
  | .Sloppy => true
  | _ => false

/-- `FocusBehaviour::is_clickto`. -/
def FocusBehaviour.is_clickto : FocusBehaviour → Bool
  | .ClickTo => true
  | _ => false

/-- Modelled from the spec: commands carried by `DisplayEvent::SendCommand`
(only the two variants emitted by the embedded client-message translator). -/
inductive Command where
  | GoToTag (tag : Nat) (swap : Bool)
  | SendWindowToTag (window : Option WindowHandle) (tag : Nat)
deriving DecidableEq, Repr

/-- Modelled from the spec: `Xyhw` lives in `leftwm-core/src/models`.
"Absolute geometry (x, y, w, h) plus optional min/max width/height"
(spec section 3). -/
structure Xyhw where
  x : Int := 0
  y : Int := 0
  w : Int := 0
  h : Int := 0
  minw : Option Int := none
  minh : Option Int := none
  maxw : Option Int := none
  maxh : Option Int := none
deriving DecidableEq, Repr

/-- Modelled from the spec: `XyhwChange` lives in `leftwm-core/src/models`.
"A sparse patch (each field optionally present) used to accumulate partial
updates from multiple property sources" (spec section 3). -/
structure XyhwChange where
  x : Option Int := none
  y : Option Int := none
  w : Option Int := none
  h : Option Int := none
  minw : Option Int := none
  minh : Option Int := none
  maxw : Option Int := none
  maxh : Option Int := none
deriving DecidableEq, Repr

/-- Modelled from the spec: `XyhwChange::update` commits every present field
of the sparse patch onto a full geometry (spec section 3). -/
def XyhwChange.update (c : XyhwChange) (t : Xyhw) : Xyhw :=
  { x := c.x.getD t.x
    y := c.y.getD t.y
    w := c.w.getD t.w
    h := c.h.getD t.h
    minw := if c.minw.isSome then c.minw else t.minw
    minh := if c.minh.isSome then c.minh else t.minh
    maxw := if c.maxw.isSome then c.maxw else t.maxw
    maxh := if c.maxh.isSome then c.maxh else t.maxh }

/-- Rust's `std::cmp::max` on `Option<i32>` (`None` is smaller than any
`Some`, `Some`s compare by value). Used by `get_hint_sizing_as_xyhw` and
`setup_window`. -/
def option_max : Option Int → Option Int → Option Int
  | none, b => b
  | a, none => a
  | some a, some b => some (max a b)

/-- The window record built by `setup_window`. Modelled from the spec:
`Window` lives in `leftwm-core/src/models`; only the fields assigned by the
embedded functions appear. `Window::new(handle, name, pid)` leaves the other
fields at their defaults. -/
structure Window where
  handle : WindowHandle
  name : Option String := none
  pid : Option Nat := none
  res_name : Option String := none
  res_class : Option String := none
  legacy_name : Option String := none
  wtype : WindowType := .Normal
  states : List WindowState := []
  transient : Option WindowHandle := none
  floating : Option Xyhw := none
  requested : Option Xyhw := none
  can_resize : Bool := true
  never_focus : Bool := false
  urgent : Bool := false
deriving DecidableEq, Repr

/-- Modelled from the spec: `XyhwChange::update_window_floating` applies the
present fields of the patch to the window's floating geometry (spec
sections 3 and 4.2). -/
def XyhwChange.update_window_floating (c : XyhwChange) (w : Window) : Window :=
  { w with floating := some (c.update (w.floating.getD {})) }

/-- `WindowChange` — the sparse window-update payload of
`DisplayEvent::WindowChange`. Modelled from the spec (lives in
`leftwm-core/src/models`); `WindowChange::new(handle)` leaves every optional
field `None`. `wtype` stands for the source's raw-identifier field `r#type`. -/
structure WindowChange where
  handle : WindowHandle
  name : Option (Option String) := none
  transient : Option (Option WindowHandle) := none
  never_focus : Option Bool := none
  states : Option (List WindowState) := none
  floating : Option XyhwChange := none
  requested : Option Xyhw := none
  strut : Option XyhwChange := none
  wtype : Option WindowType := none
deriving DecidableEq, Repr

/-- The internal events produced by the embedded translators (the
`DisplayEvent` variants they construct). -/
inductive DisplayEvent where
  | WindowCreate (w : Window) (x : Int) (y : Int)
  | WindowChange (c : WindowChange)
  | WindowDestroy (h : WindowHandle)
  | ConfigureXlibWindow (h : WindowHandle)
  | MoveWindow (h : WindowHandle) (x y : Int)
  | ResizeWindow (h : WindowHandle) (x y : Int)
  | Movement (h : WindowHandle) (x y : Int)
  | ChangeToNormalMode
  | SendCommand (c : Command)
  | WindowTakeFocus (h : WindowHandle)
deriving DecidableEq, Repr

/-- `x11rb::properties::WmSizeHints`, restricted to the fields read by
`get_hint_sizing_as_xyhw`. A `size`/`position` entry carries the
user-vs-program specification tag as its first component, exactly as the
binding's tuple does; the embedded code only reads the two coordinates. -/
structure WmSizeHints where
  size : Option (Int × Int × Int) := none
  size_increment : Option (Int × Int) := none
  max_size : Option (Int × Int) := none
  min_size : Option (Int × Int) := none
  position : Option (Int × Int × Int) := none
deriving DecidableEq, Repr

/-- `x11rb::properties::WmHints`, restricted to the fields the embedded code
reads (`input` and `urgent`). -/
structure WmHints where
  input : Option Bool := none
  urgent : Bool := false
deriving DecidableEq, Repr

/-- `GetWindowAttributesReply`, restricted to the field the embedded code
reads. -/
structure WindowAttributes where
  override_redirect : Bool
deriving DecidableEq, Repr

/-- The resolved atom table (`AtomCollection` in
`xcb_display_server/xatom.rs`, which resolves each well-known name once at
bootstrap). Concrete distinct numbers stand for the server-interned atoms;
the predefined ICCCM atoms carry their protocol-fixed values. `STRUT_PART`
stands for the strut atom of the newer 12-field convention. -/
structure AtomCollection where
  WM_DELETE : Nat := 260
  WM_TAKE_FOCUS : Nat := 261
  WM_STATE : Nat := 262
  NET_CLIENT_LIST : Nat := 270
  NET_CURRENT_DESKTOP : Nat := 271
  NET_WM_DESKTOP : Nat := 272
  NET_ACTIVE_WINDOW : Nat := 273
  NET_WM_NAME : Nat := 274
  NET_WM_STRUT : Nat := 275
  NET_WM_STRUT_PART : Nat := 276
  NET_WM_STATE : Nat := 300
  NET_WM_STATE_MODAL : Nat := 301
  NET_WM_STATE_STICKY : Nat := 302
  NET_WM_STATE_MAXIMIZED_VERT : Nat := 303
  NET_WM_STATE_MAXIMIZED_HORZ : Nat := 304
  NET_WM_STATE_SHADED : Nat := 305
  NET_WM_STATE_SKIP_TASKBAR : Nat := 306
  NET_WM_STATE_SKIP_PAGER : Nat := 307
  NET_WM_STATE_HIDDEN : Nat := 308
  NET_WM_STATE_FULLSCREEN : Nat := 309
  NET_WM_STATE_ABOVE : Nat := 310
  NET_WM_STATE_BELOW : Nat := 311
  NET_WM_ACTION_RESIZE : Nat := 320
  NET_WM_WINDOW_TYPE_DESKTOP : Nat := 330
  NET_WM_WINDOW_TYPE_DOCK : Nat := 331
  NET_WM_WINDOW_TYPE_TOOLBAR : Nat := 332
  NET_WM_WINDOW_TYPE_MENU : Nat := 333
  NET_WM_WINDOW_TYPE_UTILITY : Nat := 334
  NET_WM_WINDOW_TYPE_SPLASH : Nat := 335
  NET_WM_WINDOW_TYPE_DIALOG : Nat := 336
deriving DecidableEq, Repr

/-- The atom table as resolved at bootstrap (immutable thereafter, spec
section 3). -/
def atoms : AtomCollection := {}

/-- The predefined atom number of `WM_TRANSIENT_FOR` (X protocol). -/
def predefined_WM_TRANSIENT_FOR : Nat := 68

/-- The predefined atom number of `WM_NORMAL_HINTS` (X protocol). -/
def predefined_WM_NORMAL_HINTS : Nat := 40

/-- The predefined atom number of `WM_HINTS` (X protocol). -/
def predefined_WM_HINTS : Nat := 35

/-- The predefined atom number of `WM_NAME` (X protocol). -/
def predefined_WM_NAME : Nat := 39

/-- `WITHDRAWN_STATE` (xcbwrap/mod.rs). -/
def WITHDRAWN_STATE : Nat := 0

/-- `NORMAL_STATE` (xcbwrap/mod.rs). -/
def NORMAL_STATE : Nat := 1

/-- `ICONIC_STATE` (xcbwrap/mod.rs). -/
def ICONIC_STATE : Nat := 2

/-- The three cursor glyphs loaded at bootstrap (`XCBCursors`). -/
structure XCBCursors where
  normal : Nat := 0
  resize : Nat := 1
  move_ : Nat := 2
deriving DecidableEq, Repr

/-- The border colors (`Colors` in xcbwrap/mod.rs). -/
structure Colors where
  normal : Nat := 0
  floating : Nat := 0
  active : Nat := 0
deriving DecidableEq, Repr

/-- The X server's side of the session, as seen through the wrapper's
queries: per-window property content and attributes. Queries are modelled as
total reads (the successful-reply case). `strut_change` abstracts the
`DockArea` decode of `build_change_for_size_strut` (the `DockArea` model and
its `as_xyhw` computation live in `leftwm-core/src/models`, outside the
provided sources): it is the `WindowChange` that decode yields for the
window, if any. -/
structure XServer where
  override_redirect : Nat → Bool := fun _ => false
  net_wm_name : Nat → Option String := fun _ => none
  wm_name : Nat → String := fun _ => ""
  wm_class_instance : Nat → String := fun _ => ""
  wm_class_class : Nat → String := fun _ => ""
  net_wm_pid : Nat → Nat := fun _ => 0
  window_type_atom : Nat → Nat := fun _ => 0
  net_wm_state : Nat → List Nat := fun _ => []
  net_wm_action : Nat → List Nat := fun _ => []
  transient_for : Nat → Option Nat := fun _ => none
  wm_normal_hints : Nat → WmSizeHints := fun _ => {}
  has_normal_hints : Nat → Bool := fun _ => false
  wm_hints : Nat → WmHints := fun _ => {}
  wm_state : Nat → List Nat := fun _ => []
  geometry : Nat → XyhwChange := fun _ => {}
  all_windows : List Nat := []
  pointer : Int × Int := (0, 0)
  strut_change : Nat → Option WindowChange := fun _ => none

/-- The wrapper state (`XCBWrap` in xcbwrap/mod.rs): the session-owned
mutable fields the embedded operations touch, plus the modelled server.
`client_list` is the `_NET_CLIENT_LIST` property currently published on the
root; `pointer_grab` is `some cursor` while the pointer is grabbed with that
cursor glyph; `button_grabs` records which windows currently hold passive
button grabs. -/
structure XCBWrap where
  server : XServer := {}
  root : Nat := 0
  cursors : XCBCursors := {}
  colors : Colors := {}
  managed_windows : List Nat := []
  focused_window : Nat := 0
  mode : Mode := .Normal
  focus_behaviour : FocusBehaviour := .Sloppy
  mouse_key_mask : Nat := 0
  mode_origin : Int × Int := (0, 0)
  motion_event_limiter : Nat := 0
  refresh_rate : Nat := 60
  pointer_grab : Option Nat := none
  client_list : List Nat := []
  button_grabs : Nat → Bool := fun _ => false

/-- `get_default_root_handle` (getters.rs). -/
def XCBWrap.get_default_root_handle (x : XCBWrap) : WindowHandle :=
  .XCBHandle x.root

/-- `get_default_root` (getters.rs). -/
def XCBWrap.get_default_root (x : XCBWrap) : Nat :=
  x.root

/-- `get_cursor_point` (getters.rs), successful-query case. -/
def XCBWrap.get_cursor_point (x : XCBWrap) : Int × Int :=
  x.server.pointer

/-- `get_window_attrs` (getters.rs), successful-query case. -/
def XCBWrap.get_window_attrs (x : XCBWrap) (window : Nat) : WindowAttributes :=
  { override_redirect := x.server.override_redirect window }

/-- `get_window_geometry` (getters.rs): the on-wire geometry as a sparse
patch (x, y, w, h present; min/max not provided by the server reply). -/
def XCBWrap.get_window_geometry (x : XCBWrap) (window : Nat) : XyhwChange :=
  x.server.geometry window

/-- `get_window_legacy_name` (getters.rs): the ICCCM `WM_NAME` text. -/
def XCBWrap.get_window_legacy_name (x : XCBWrap) (window : Nat) : String :=
  x.server.wm_name window

/-- `get_window_name` (getters.rs): prefer `_NET_WM_NAME`, fall back to the
legacy name. -/
def XCBWrap.get_window_name (x : XCBWrap) (window : Nat) : String :=
  match x.server.net_wm_name window with
  | some s => s
  | none => x.get_window_legacy_name window

/-- `get_window_pid` (getters.rs), successful-query case. -/
def XCBWrap.get_window_pid (x : XCBWrap) (window : Nat) : Nat :=
  x.server.net_wm_pid window

/-- `get_window_type` (getters.rs lines 572-596): decode the first
`_NET_WM_WINDOW_TYPE` atom, defaulting to Normal. The source's `match` with
guard arms becomes an if-chain over the same atom comparisons, in the same
order. -/
def XCBWrap.get_window_type (x : XCBWrap) (window : Nat) : WindowType :=
  let a := x.server.window_type_atom window
  if a = atoms.NET_WM_WINDOW_TYPE_DESKTOP then .Desktop
  else if a = atoms.NET_WM_WINDOW_TYPE_DOCK then .Dock
  else if a = atoms.NET_WM_WINDOW_TYPE_TOOLBAR then .Toolbar
  else if a = atoms.NET_WM_WINDOW_TYPE_MENU then .Menu
  else if a = atoms.NET_WM_WINDOW_TYPE_UTILITY then .Utility
  else if a = atoms.NET_WM_WINDOW_TYPE_SPLASH then .Splash
  else if a = atoms.NET_WM_WINDOW_TYPE_DIALOG then .Dialog
  else .Normal

/-- `get_window_states_atoms` (getters.rs): the raw `_NET_WM_STATE` atom
list. -/
def XCBWrap.get_window_states_atoms (x : XCBWrap) (window : Nat) : List Nat :=
  x.server.net_wm_state window

/-- The per-atom decode inside `get_window_states` (getters.rs lines
484-503). The source's `match` with guard arms becomes an if-chain over the
same atom comparisons, in the same order; the final arm is the source's
`_ => WindowState::Modal`. -/
def decode_window_state (a : Nat) : WindowState :=
  if a = atoms.NET_WM_STATE_MODAL then .Modal
  else if a = atoms.NET_WM_STATE_STICKY then .Sticky
  else if a = atoms.NET_WM_STATE_MAXIMIZED_VERT then .MaximizedVert
  else if a = atoms.NET_WM_STATE_MAXIMIZED_HORZ then .MaximizedHorz
  else if a = atoms.NET_WM_STATE_SHADED then .Shaded
  else if a = atoms.NET_WM_STATE_SKIP_TASKBAR then .SkipTaskbar
  else if a = atoms.NET_WM_STATE_SKIP_PAGER then .SkipPager
  else if a = atoms.NET_WM_STATE_HIDDEN then .Hidden
  else if a = atoms.NET_WM_STATE_FULLSCREEN then .Fullscreen
  else if a = atoms.NET_WM_STATE_ABOVE then .Above
  else if a = atoms.NET_WM_STATE_BELOW then .Below
  else .Modal

/-- `get_window_states` (getters.rs): map the decode over the atom list. -/
def XCBWrap.get_window_states (x : XCBWrap) (window : Nat) : List WindowState :=
  (x.get_window_states_atoms window).map decode_window_state

/-- `get_window_actions_atoms` (getters.rs), successful-query case. -/
def XCBWrap.get_window_actions_atoms (x : XCBWrap) (window : Nat) : List Nat :=
  x.server.net_wm_action window

/-- `get_transient_for` (getters.rs). -/
def XCBWrap.get_transient_for (x : XCBWrap) (window : Nat) : Option Nat :=
  x.server.transient_for window

/-- `get_wmhints` (getters.rs), successful-query case. -/
def XCBWrap.get_wmhints (x : XCBWrap) (window : Nat) : WmHints :=
  x.server.wm_hints window

/-- `get_xatom_name` (getters.rs): only used for trace logging by the
embedded translators, so a constant suffices for the successful-query
case. -/
def XCBWrap.get_xatom_name (_x : XCBWrap) (_atom : Nat) : String :=
  "atom"

/-- `get_all_windows` (getters.rs): every child of every root. -/
def XCBWrap.get_all_windows (x : XCBWrap) : List Nat :=
  x.server.all_windows

/-- `get_hint_sizing_as_xyhw` (getters.rs lines 105-143), as a pure function
of the decoded `WM_NORMAL_HINTS`: overlay size, size-increment, max-size and
min-size onto `w`/`h` in that order, clamp `w`/`h` below by `minw`/`minh`,
drop zero sizes, then overlay the position. -/
def get_hint_sizing_as_xyhw (hint : WmSizeHints) : XyhwChange :=
  let xyhw : XyhwChange := {}
  let xyhw := match hint.size with
    | some (_, w, h) => { xyhw with w := some w, h := some h }
    | none => xyhw
  let xyhw := match hint.size_increment with
    | some (w, h) => { xyhw with w := some w, h := some h }
    | none => xyhw
  let xyhw := match hint.max_size with
    | some (w, h) => { xyhw with w := some w, h := some h }
    | none => xyhw
  let xyhw := match hint.min_size with
    | some (w, h) => { xyhw with w := some w, h := some h }
    | none => xyhw
  -- Make sure that width and height are not smaller than the min values.
  let xyhw := { xyhw with
    w := option_max xyhw.w xyhw.minw
    h := option_max xyhw.h xyhw.minh }
  -- Ignore the sizing if the sizing is set to 0.
  let xyhw := { xyhw with
    w := xyhw.w.filter (fun w => w ≠ 0)
    h := xyhw.h.filter (fun h => h ≠ 0) }
  match hint.position with
  | some (_, px, py) => { xyhw with x := some px, y := some py }
  | none => xyhw

/-- The wrapper's `get_hint_sizing_as_xyhw` applied to the window's
`WM_NORMAL_HINTS`. -/
def XCBWrap.get_hint_sizing_as_xyhw (x : XCBWrap) (window : Nat) : XyhwChange :=
  LeftWM.get_hint_sizing_as_xyhw (x.server.wm_normal_hints window)

/-- `set_window_states_atoms` (setters.rs): replace the window's
`_NET_WM_STATE` atom-list property. -/
def XCBWrap.set_window_states_atoms (x : XCBWrap) (window : Nat) (states : List Nat) :
    XCBWrap :=
  { x with server := { x.server with
      net_wm_state := fun w => if w = window then states else x.server.net_wm_state w } }

/-- `set_wm_states` (setters.rs): replace the window's ICCCM `WM_STATE`
property. -/
def XCBWrap.set_wm_states (x : XCBWrap) (window : Nat) (states : List Nat) : XCBWrap :=
  { x with server := { x.server with
      wm_state := fun w => if w = window then states else x.server.wm_state w } }

/-- `set_wmhints` (setters.rs). -/
def XCBWrap.set_wmhints (x : XCBWrap) (window : Nat) (wmh : WmHints) : XCBWrap :=
  { x with server := { x.server with
      wm_hints := fun w => if w = window then wmh else x.server.wm_hints w } }

/-- `set_window_urgency` (setters.rs): rewrite the urgent flag of the
window's `WM_HINTS` only when it differs. -/
def XCBWrap.set_window_urgency (x : XCBWrap) (window : Nat) (is_urgent : Bool) : XCBWrap :=
  let hints := x.get_wmhints window
  if hints.urgent = is_urgent then x
  else x.set_wmhints window { hints with urgent := is_urgent }

/-- `set_client_list` (setters.rs lines 62-77): delete the root's
`_NET_CLIENT_LIST` property, then append every managed window in registry
order — net effect, the published list becomes the managed list. -/
def XCBWrap.set_client_list (x : XCBWrap) : XCBWrap :=
  { x with client_list := x.managed_windows }

/-- `ungrab_buttons` (mouse.rs): release all passive button grabs on the
window. -/
def XCBWrap.ungrab_buttons (x : XCBWrap) (handle : Nat) : XCBWrap :=
  { x with button_grabs := fun w => if w = handle then false else x.button_grabs w }

/-- `grab_pointer` (mouse.rs), successful-grab case: the pointer is now
grabbed with the given cursor glyph. -/
def XCBWrap.grab_pointer (x : XCBWrap) (cursor : Nat) : XCBWrap :=
  { x with pointer_grab := some cursor }

/-- `ungrab_pointer` (mouse.rs). -/
def XCBWrap.ungrab_pointer (x : XCBWrap) : XCBWrap :=
  { x with pointer_grab := none }

/-- The cursor chosen by the `let cursor = match mode` inside both
mode-changing arms of `set_mode` (xcbwrap/mod.rs lines 471-475 and
483-487). -/
def XCBWrap.cursor_for_mode (x : XCBWrap) (mode : Mode) : Nat :=
  match mode with
  | .ReadyToResize _ | .ResizingWindow _ => x.cursors.resize
  | .ReadyToMove _ | .MovingWindow _ => x.cursors.move_
  | .Normal => x.cursors.normal

/-- `set_mode` (xcbwrap/mod.rs lines 458-496). The source is a single
`match` whose arms apply in order:
1. any non-Normal mode naming the root handle — do nothing;
2. `ReadyToMove`/`ReadyToResize` while the current mode is Normal — record
   the mode, record the pointer location as the session origin, grab the
   pointer with the move/resize cursor;
3. `MovingWindow(h)`/`ResizingWindow(h)` while the current mode is
   `ReadyToMove(h)` or `ReadyToResize(h)` — ungrab, record the mode, re-grab;
4. `Normal` — ungrab the pointer, record the mode;
5. anything else — do nothing.
Here each requested-mode constructor dispatches through the same guards in
the same order. -/
def XCBWrap.set_mode (x : XCBWrap) (mode : Mode) : XCBWrap :=
  match mode with
  | .Normal => { x.ungrab_pointer with mode := .Normal }
  | .ReadyToMove h | .ReadyToResize h =>
    if h = x.get_default_root_handle then x
    else if x.mode = .Normal then
      let x := { x with mode := mode, mode_origin := x.get_cursor_point }
      x.grab_pointer (x.cursor_for_mode mode)
    else x
  | .MovingWindow h | .ResizingWindow h =>
    if h = x.get_default_root_handle then x
    else if x.mode = .ReadyToMove h ∨ x.mode = .ReadyToResize h then
      let x := x.ungrab_pointer
      let x := { x with mode := mode }
      x.grab_pointer (x.cursor_for_mode mode)
    else x

/-- Outcome of an operation that can complete, fail with a protocol error,
or panic (`unimplemented!()` in the source). -/
inductive XCBOutcome (α : Type) where
  | ok (val : α)
  | panicked (msg : String)
deriving DecidableEq, Repr

/-- `can_send_xevent_atom` (xcbwrap/mod.rs lines 410-423): the body is
`unimplemented!()` — calling it panics with the standard "not implemented"
message. -/
def XCBWrap.can_send_xevent_atom (_x : XCBWrap) (_window : Nat) (_atom : Nat) :
    XCBOutcome Bool :=
  .panicked "not implemented"

/-- `send_xevent_atom` (xcbwrap/mod.rs lines 380-394): probe
`can_send_xevent_atom`; when it reports true, send the client message and
return true, otherwise return false. The probe's panic propagates. -/
def XCBWrap.send_xevent_atom (x : XCBWrap) (window : Nat) (atom : Nat) : XCBOutcome Bool :=
  match x.can_send_xevent_atom window atom with
  | .panicked m => .panicked m
  | .ok true => .ok true
  | .ok false => .ok false

/-- `kill_window` (xcbwrap/window.rs lines 447-469): for an xcb handle, ask
politely via `WM_DELETE`; when that reports the window does not support it,
force-kill the client under a server grab (grab server, kill client, sync,
ungrab server — no further modelled state change). Panics from the polite
path propagate. -/
def XCBWrap.kill_window (x : XCBWrap) (h : WindowHandle) : XCBOutcome Unit :=
  match h with
  | .XCBHandle handle =>
    match x.send_xevent_atom handle atoms.WM_DELETE with
    | .panicked m => .panicked m
    | .ok true => .ok ()
    | .ok false => .ok ()
  | _ => .ok ()

/-- `teardown_managed_window` (xcbwrap/window.rs lines 172-194): for an xcb
handle, drop the window from the managed registry unconditionally; when the
window was not already destroyed, atomically (under a server grab) release
its button grabs and set `WM_STATE` to withdrawn; always republish the
client list. Non-xcb handles are untouched. -/
def XCBWrap.teardown_managed_window (x : XCBWrap) (h : WindowHandle) (destroyed : Bool) :
    XCBWrap :=
  match h with
  | .XCBHandle handle =>
    let x := { x with managed_windows := x.managed_windows.filter (fun w => w ≠ handle) }
    let x := if !destroyed then
        (x.ungrab_buttons handle).set_wm_states handle [WITHDRAWN_STATE]
      else x
    x.set_client_list
  | _ => x

/-- `force_unmapped` (xcbwrap/window.rs lines 472-479). -/
def XCBWrap.force_unmapped (x : XCBWrap) (window : Nat) : XCBWrap :=
  if window ∈ x.managed_windows then
    let x := { x with managed_windows := x.managed_windows.filter (fun w => w ≠ window) }
    x.set_client_list
  else x

/-- The Splash resizability rule of `setup_window` (xcbwrap/window.rs lines
56-71): a Splash window with all four of min/max width/height present keeps
the action-derived `can_resize` unless min and max differ; every other
combination is resizable. -/
def setup_can_resize (wtype : WindowType) (sizing : XyhwChange) (can0 : Bool) : Bool :=
  match wtype, sizing.minw, sizing.minh, sizing.maxw, sizing.maxh with
  | .Splash, some min_width, some min_height, some max_width, some max_height =>
    can0 || decide (min_width ≠ max_width) || decide (min_height ≠ max_height)
  | _, _, _, _, _ => true

/-- `setup_window` (xcb backend, xcbwrap/window.rs lines 15-91): the guard
returns no event when the window does NOT have the override-redirect
attribute, or is already managed (`!attrs.override_redirect ||
self.managed_windows.contains(&window)`); otherwise gather the window's
properties, build the window record, apply the Splash resizability rule and
the pre-mapped-size maxima, and emit `WindowCreate` with the pointer
position. -/
def XCBWrap.setup_window (x : XCBWrap) (window : Nat) : Option DisplayEvent :=
  -- Check that the window isn't requesting to be unmanaged
  let attrs := x.get_window_attrs window
  let geometry := x.get_window_geometry window
  if attrs.override_redirect = false ∨ window ∈ x.managed_windows then
    none
  else
    let handle : WindowHandle := .XCBHandle window
    -- Gather info about the window.
    let name := x.get_window_name window
    let legacy_name := x.get_window_legacy_name window
    let pid := x.get_window_pid window
    let wtype := x.get_window_type window
    let states := x.get_window_states window
    let actions := x.get_window_actions_atoms window
    let can_resize := actions.contains atoms.NET_WM_ACTION_RESIZE
    let trans := x.get_transient_for window
    let sizing_hint := x.get_hint_sizing_as_xyhw window
    let wm_hint := x.get_wmhints window
    -- Build the new window, and fill in info about it.
    let w : Window :=
      { handle := handle
        name := some name
        pid := some pid
        res_name := some (x.server.wm_class_instance window)
        res_class := some (x.server.wm_class_class window)
        legacy_name := some legacy_name
        wtype := wtype
        states := states
        transient := trans.map .XCBHandle }
    -- Initialise the windows floating with the pre-mapped settings.
    let xyhw := { geometry with maxw := sizing_hint.maxw, maxh := sizing_hint.maxh }
    let w := xyhw.update_window_floating w
    let requested : Xyhw := {}
    let requested := xyhw.update requested
    let can_resize := setup_can_resize wtype sizing_hint can_resize
    -- Use the pre-mapped sizes if they are bigger.
    let sizing_hint := { sizing_hint with
      w := option_max xyhw.w sizing_hint.w
      h := option_max xyhw.h sizing_hint.h }
    let w := sizing_hint.update_window_floating w
    let requested := sizing_hint.update requested
    let w := { w with
      requested := some requested
      can_resize := can_resize
      never_focus := !(wm_hint.input.getD true) }
    let cursor := x.get_cursor_point
    some (.WindowCreate w cursor.1 cursor.2)

/-- The x11rb backend's size-hints decode, modelled from the spec (the x11rb
`xwrap/getters.rs` is not under the provided sources): "size hints ↔
`XyhwChange` (decoding modern WM-size-hints fields: size, size-increment,
min/max size, and position, each optional and independently present/absent)"
(spec section 4.2); absent `WM_NORMAL_HINTS` surfaces as `None`. -/
def x11rb_hint_sizing_as_xyhw (present : Bool) (hint : WmSizeHints) : Option XyhwChange :=
  if present then
    some
      { w := (hint.size.map fun s => s.2.1)
        h := (hint.size.map fun s => s.2.2)
        minw := hint.min_size.map Prod.fst
        minh := hint.min_size.map Prod.snd
        maxw := hint.max_size.map Prod.fst
        maxh := hint.max_size.map Prod.snd
        x := hint.position.map fun p => p.2.1
        y := hint.position.map fun p => p.2.2 }
  else none

/-- `setup_window` (x11rb backend,
display-servers/x11rb-display-server/src/xwrap/window.rs lines 15-103): the
guard proceeds only when the window is NOT override-redirect and NOT already
managed; otherwise gather properties, apply the Splash resizability rule
(against the hint's min/max fields, which this backend's decoder populates),
and emit `WindowCreate` with the pointer position. Its getters are modelled
from the spec (that backend's `xwrap/getters.rs` is not under the provided
sources), reading the same modelled server. -/
def XCBWrap.setup_window_x11rb (x : XCBWrap) (window : Nat) : Option DisplayEvent :=
  -- Check that the window isn't requesting to be unmanaged
  if x.server.override_redirect window = false ∧ window ∉ x.managed_windows then
    let handle : WindowHandle := .X11rbHandle window
    let name := x.server.net_wm_name window
    let legacy_name := x.server.wm_name window
    let pid := x.server.net_wm_pid window
    let wtype := x.get_window_type window
    let states := x.get_window_states window
    let actions := x.get_window_actions_atoms window
    let can_resize := actions.contains atoms.NET_WM_ACTION_RESIZE
    let trans := x.get_transient_for window
    let sizing_hint :=
      x11rb_hint_sizing_as_xyhw (x.server.has_normal_hints window)
        (x.server.wm_normal_hints window)
    let wm_hint := x.get_wmhints window
    let w : Window :=
      { handle := handle
        name := name
        pid := some pid
        res_name := some (x.server.wm_class_instance window)
        res_class := some (x.server.wm_class_class window)
        legacy_name := some legacy_name
        wtype := wtype
        states := states
        transient := trans.map .X11rbHandle }
    let w := (sizing_hint.getD {}).update_window_floating w
    let requested : Xyhw := {}
    let requested := (sizing_hint.getD {}).update requested
    let result :=
      match sizing_hint with
      | some hint =>
        let can_resize := setup_can_resize wtype hint can_resize
        let w := hint.update_window_floating w
        let requested := hint.update requested
        (w, requested, can_resize)
      | none => (w, requested, can_resize)
    let w := result.1
    let requested := result.2.1
    let can_resize := result.2.2
    let w := { w with requested := some requested, can_resize := can_resize }
    let w := { w with
      never_focus := wm_hint.input.getD false
      urgent := wm_hint.urgent }
    let cursor := x.get_cursor_point
    some (.WindowCreate w cursor.1 cursor.2)
  else none

/-- Ordered insertion into an ascending list (helper for `sort_atoms`). -/
def insert_sorted (a : Nat) : List Nat → List Nat
  | [] => [a]
  | b :: t => if a ≤ b then a :: b :: t else b :: insert_sorted a t

/-- `Vec::sort_unstable` on the atom list: sort ascending. (Insertion sort —
on `Nat` keys every ascending sort produces the same list, so this is
observationally the source's sort.) -/
def sort_atoms : List Nat → List Nat
  | [] => []
  | a :: t => insert_sorted a (sort_atoms t)

/-- `Vec::dedup`: remove consecutive repeated elements. -/
def dedup_consecutive : List Nat → List Nat
  | [] => []
  | [a] => [a]
  | a :: b :: t => if a = b then dedup_consecutive (b :: t) else a :: dedup_consecutive (b :: t)

/-- `ClientMessageEvent`, restricted to the fields the translator reads:
the target window, the message type atom, and the five 32-bit data words
(`event.data.as_data32()[0..4]`). -/
structure ClientMessageEvent where
  window : Nat
  type_ : Nat
  d0 : Nat := 0
  d1 : Nat := 0
  d2 : Nat := 0
  d3 : Nat := 0
  d4 : Nat := 0
deriving DecidableEq, Repr

/-- `event_translate_client_message::from_event` (lines 6-109): ignore
messages for unmanaged, non-root windows; handle `_NET_CURRENT_DESKTOP`,
`_NET_WM_DESKTOP` and `_NET_ACTIVE_WINDOW`; then, for `_NET_WM_STATE`
messages naming the fullscreen atom in data word 1 or 2, recompute the
window's state-atom list (set / unset / toggle according to data word 0,
then sort and dedup) and write it back; finally, for any `_NET_WM_STATE`
message, report the window's (re-read) decoded state list as a
`WindowChange`. -/
def client_message_from_event (x : XCBWrap) (ev : ClientMessageEvent) :
    XCBWrap × Option DisplayEvent :=
  if ev.window ∉ x.managed_windows ∧ ev.window ≠ x.get_default_root then (x, none)
  else if ev.type_ = atoms.NET_CURRENT_DESKTOP then
    (x, some (.SendCommand (.GoToTag (ev.d0 + 1) false)))
  else if ev.type_ = atoms.NET_WM_DESKTOP then
    (x, some (.SendCommand (.SendWindowToTag (some (.XCBHandle ev.window)) (ev.d0 + 1))))
  else if ev.type_ = atoms.NET_ACTIVE_WINDOW then
    (x.set_window_urgency ev.window true, none)
  else
    -- if the client is trying to toggle fullscreen without changing the
    -- window state, change it too
    let x :=
      if ev.type_ = atoms.NET_WM_STATE ∧
          (ev.d1 = atoms.NET_WM_STATE_FULLSCREEN ∨ ev.d2 = atoms.NET_WM_STATE_FULLSCREEN) then
        let set_fullscreen := ev.d0 = 1
        let toggle_fullscreen := ev.d0 = 2
        let states := x.get_window_states_atoms ev.window
        -- determine what to change the state to
        let fullscreen :=
          if toggle_fullscreen then !(states.contains atoms.NET_WM_STATE_FULLSCREEN)
          else set_fullscreen
        -- update the list of states
        let states :=
          if fullscreen then states ++ [atoms.NET_WM_STATE_FULLSCREEN]
          else states.filter (fun a => a ≠ atoms.NET_WM_STATE_FULLSCREEN)
        let states := dedup_consecutive (sort_atoms states)
        -- set the windows state
        x.set_window_states_atoms ev.window states
      else x
    -- update the window states
    if ev.type_ = atoms.NET_WM_STATE then
      (x, some (.WindowChange
        { handle := .XCBHandle ev.window
          states := some (x.get_window_states ev.window) }))
    else (x, none)

/-- `PropertyNotifyEvent`, restricted to the fields the translator reads.
`state_is_delete` is `event.state == Property::DELETE`. -/
structure PropertyNotifyEvent where
  window : Nat
  atom : Nat
  state_is_delete : Bool := false
deriving DecidableEq, Repr

/-- `update_title` (event_translate_property_notify.rs lines 129-135). -/
def update_title (x : XCBWrap) (window : Nat) : DisplayEvent :=
  .WindowChange
    { handle := .XCBHandle window
      name := some (some (x.get_window_name window)) }

/-- `build_change_for_size_hints` (event_translate_property_notify.rs lines
112-127): decode the window's size hints; a hint with no position and no
size is junk and changes nothing; otherwise report the committed geometry as
the requested one. -/
def build_change_for_size_hints (x : XCBWrap) (window : Nat) : Option WindowChange :=
  let handle : WindowHandle := .XCBHandle window
  let change : WindowChange := { handle := handle }
  let hint := x.get_hint_sizing_as_xyhw window
  if hint.x = none ∧ hint.y = none ∧ hint.w = none ∧ hint.h = none then
    -- junk hint; change change anything
    none
  else
    let xyhw : Xyhw := {}
    let xyhw := hint.update xyhw
    some { change with requested := some xyhw }

/-- `event_translate_property_notify::from_event` (lines 8-75): ignore
notifications for the root window, property deletions, and unmanaged
windows; then dispatch on the predefined atom (the source truncates the atom
to `u8` for the `AtomEnum` comparison, hence the `% 256`), with the
`_NET_*` atoms handled in the fall-through arm. -/
def property_notify_from_event (x : XCBWrap) (ev : PropertyNotifyEvent) :
    XCBWrap × Option DisplayEvent :=
  if ev.window = x.get_default_root ∨ ev.state_is_delete = true ∨
      ev.window ∉ x.managed_windows then
    (x, none)
  else
    let a8 := ev.atom % 256
    if a8 = predefined_WM_TRANSIENT_FOR then
      let window_type := x.get_window_type ev.window
      let handle : WindowHandle := .XCBHandle ev.window
      let change : WindowChange := { handle := handle }
      let change :=
        if window_type ≠ .Normal then
          { change with
            transient := some ((x.get_transient_for ev.window).map .XCBHandle) }
        else change
      (x, some (.WindowChange change))
    else if a8 = predefined_WM_NORMAL_HINTS then
      (x, (build_change_for_size_hints x ev.window).map DisplayEvent.WindowChange)
    else if a8 = predefined_WM_HINTS then
      let hints := x.get_wmhints ev.window
      if hints.input = some true then
        (x, some (.WindowChange
          { handle := .XCBHandle ev.window
            never_focus := some (!(hints.input.getD true)) }))
      else (x, none)
    else if a8 = predefined_WM_NAME then
      (x, some (update_title x ev.window))
    else if ev.atom = atoms.NET_WM_NAME then
      (x, some (update_title x ev.window))
    else
      -- the strut branch only returns when the decode yields a change;
      -- note the source's `A || B && C` associates as `A || (B && C)`
      let strut_hit :=
        ev.atom = atoms.NET_WM_STRUT ∨
          (ev.atom = atoms.NET_WM_STRUT_PART ∧ x.get_window_type ev.window = .Dock)
      match (if strut_hit then x.server.strut_change ev.window else none) with
      | some change => (x, some (.WindowChange change))
      | none =>
        if ev.atom = atoms.NET_WM_STATE then
          (x, some (.WindowChange
            { handle := .XCBHandle ev.window
              states := some (x.get_window_states ev.window) }))
        else (x, none)

/-- `from_unmap_event` (event_translate.rs lines 68-83): a synthetic unmap
of a managed window is treated as a destroy (teardown, not-destroyed
variant, and a `WindowDestroy` event); a real unmap of a managed window only
marks it withdrawn; unmanaged windows are ignored. `sent_event` is
`raw_event.sent_event()`. -/
def XCBWrap.from_unmap_event (x : XCBWrap) (sent_event : Bool) (window : Nat) :
    XCBWrap × Option DisplayEvent :=
  if window ∈ x.managed_windows then
    if sent_event then
      let h : WindowHandle := .XCBHandle window
      (x.teardown_managed_window h false, some (.WindowDestroy h))
    else
      -- Set WM_STATE to withdrawn state.
      (x.set_wm_states window [WITHDRAWN_STATE], none)
  else (x, none)

/-- `from_destroy_notify` (event_translate.rs lines 85-92). -/
def XCBWrap.from_destroy_notify (x : XCBWrap) (window : Nat) :
    XCBWrap × Option DisplayEvent :=
  if window ∈ x.managed_windows then
    let h : WindowHandle := .XCBHandle window
    (x.teardown_managed_window h true, some (.WindowDestroy h))
  else (x, none)

/-- `MotionNotifyEvent`, restricted to the fields the translator reads. -/
structure MotionNotifyEvent where
  time : Nat
  event : Nat
  root_x : Int
  root_y : Int
deriving DecidableEq, Repr

/-- `2^64`, the modulus of the source's `u64` arithmetic. -/
def U64 : Nat := 2 ^ 64

/-- `from_motion_notify` (event_translate.rs lines 186-218): throttle by the
refresh rate (`event.time as u64 - limiter > 1000 / refresh_rate`, a
wrapping `u64` subtraction, here written modulo `2^64`); on a passing event
record the new limiter, compute the offset of the event's root position from
the session origin, and dispatch on the interaction mode — arming states
advance to their active states via `set_mode`, active states self-loop, and
Normal mode reports pointer movement only under sloppy focus. -/
def XCBWrap.from_motion_notify (x : XCBWrap) (ev : MotionNotifyEvent) :
    XCBWrap × Option DisplayEvent :=
  -- Limit motion events to current refresh rate.
  if x.refresh_rate > 0 ∧
      (U64 + ev.time - x.motion_event_limiter) % U64 > 1000 / x.refresh_rate then
    let x1 := { x with motion_event_limiter := ev.time }
    let event_h : WindowHandle := .XCBHandle ev.event
    let offset_x := ev.root_x - x1.mode_origin.1
    let offset_y := ev.root_y - x1.mode_origin.2
    match x1.mode with
    | .ReadyToMove h =>
      (x1.set_mode (.MovingWindow h), some (.MoveWindow h offset_x offset_y))
    | .MovingWindow h => (x1, some (.MoveWindow h offset_x offset_y))
    | .ReadyToResize h =>
      (x1.set_mode (.ResizingWindow h), some (.ResizeWindow h offset_x offset_y))
    | .ResizingWindow h => (x1, some (.ResizeWindow h offset_x offset_y))
    | .Normal =>
      if x1.focus_behaviour.is_sloppy then
        (x1, some (.Movement event_h ev.root_x ev.root_y))
      else (x1, none)
  else (x, none)

/-- `from_ready_to_move_window` (xcb_display_server/mod.rs lines 361-364). -/
def from_ready_to_move_window (x : XCBWrap) (h : WindowHandle) :
    XCBWrap × Option DisplayEvent :=
  (x.set_mode (.ReadyToMove h), none)

/-- `from_ready_to_resize_window` (xcb_display_server/mod.rs lines 366-369). -/
def from_ready_to_resize_window (x : XCBWrap) (h : WindowHandle) :
    XCBWrap × Option DisplayEvent :=
  (x.set_mode (.ReadyToResize h), none)

/-- `from_normal_mode` (xcb_display_server/mod.rs lines 419-422). -/
def from_normal_mode (x : XCBWrap) : XCBWrap × Option DisplayEvent :=
  (x.set_mode .Normal, none)

/-- `from_set_window_order` (xcb_display_server/mod.rs lines 337-354),
returning the list handed to `restack`: the caller's fullscreen handles,
then the server-known windows passing the source's filter (not the root,
and `!windows.contains || !fullscreen.contains`), then the caller's ordered
window list. -/
def from_set_window_order (x : XCBWrap) (fullscreen : List WindowHandle)
    (windows : List WindowHandle) : List WindowHandle :=
  -- Unmanaged windows.
  let unmanaged : List WindowHandle :=
    (((x.get_all_windows).filter (fun w => w ≠ x.get_default_root)).map
        WindowHandle.XCBHandle).filter
      (fun h => !(windows.contains h) || !(fullscreen.contains h))
  fullscreen ++ unmanaged ++ windows

/-- A `_NET_WM_STATE` client message with the toggle action (data word 0 =
2) naming the fullscreen atom in data word 1 — the shape of message claim C5
speaks about. -/
def fullscreen_toggle_msg (window d2 d3 d4 : Nat) : ClientMessageEvent :=
  { window := window
    type_ := atoms.NET_WM_STATE
    d0 := 2
    d1 := atoms.NET_WM_STATE_FULLSCREEN
    d2 := d2
    d3 := d3
    d4 := d4 }

/-- The `can_resize` flag of a `WindowCreate` event, used to observe the
resizability computed by `setup_window`. -/
def window_create_can_resize : DisplayEvent → Option Bool
  | .WindowCreate w _ _ => some w.can_resize
  | _ => none

/-- A motion event whose root position sits at the given offset from the
session origin recorded in the wrapper. -/
def motion_at_offset (x : XCBWrap) (t ew : Nat) (dx dy : Int) : MotionNotifyEvent :=
  { time := t, event := ew, root_x := x.mode_origin.1 + dx, root_y := x.mode_origin.2 + dy }

/-- Fixture for claim C1: window 5 is an ordinary (non-override-redirect)
unmanaged window, window 6 is an override-redirect unmanaged window. -/
def c1_wrap : XCBWrap :=
  { server := { override_redirect := fun w => w == 6 }, root := 0 }

/-- Fixture for claim C2: window 5's `_NET_WM_STATE` holds the single atom
999, which is none of the eleven recognized state atoms. -/
def c2_wrap : XCBWrap :=
  { server := { net_wm_state := fun w => if w = 5 then [999] else [] } }

/-- Fixture for claim C4: an interactive session is armed to move window 1. -/
def c4_wrap : XCBWrap :=
  { mode := .ReadyToMove (.XCBHandle 1), root := 0 }

/-- Fixture for claim C5: window 5 is managed and its `_NET_WM_STATE` list
is empty. -/
def c5_wrap : XCBWrap :=
  { managed_windows := [5], root := 0 }

/-- Fixture for claim C6 (xcb backend): window 6 is an unmanaged
override-redirect Splash window (override-redirect so that the xcb guard of
claim C1 lets it through to the resizability computation) whose
`WM_NORMAL_HINTS` carry min size (100, 50) equal to max size (100, 50), and
whose `_NET_WM_ACTION` list does not grant resize. -/
def c6_wrap : XCBWrap :=
  { server :=
      { override_redirect := fun w => w == 6
        window_type_atom := fun _ => atoms.NET_WM_WINDOW_TYPE_SPLASH
        wm_normal_hints := fun _ =>
          { min_size := some (100, 50), max_size := some (100, 50) }
        has_normal_hints := fun _ => true }
    root := 0 }

/-- Fixture for claim C6 (x11rb backend): the same Splash window, not
override-redirect (that backend's guard is the straight one). -/
def c6x_wrap : XCBWrap :=
  { server :=
      { window_type_atom := fun _ => atoms.NET_WM_WINDOW_TYPE_SPLASH
        wm_normal_hints := fun _ =>
          { min_size := some (100, 50), max_size := some (100, 50) }
        has_normal_hints := fun _ => true }
    root := 0 }

/-- Fixture for claim C7: the server knows the root 0 and one window 5. -/
def c7_wrap : XCBWrap :=
  { server := { all_windows := [0, 5] }, root := 0 }

/-- Fixture for claim C9: a session armed to resize window 7 from origin
(3, 4), with a 60 Hz refresh rate and a fresh motion limiter. -/
def c9_wrap : XCBWrap :=
  { mode := .ReadyToResize (.XCBHandle 7)
    root := 0
    refresh_rate := 60
    motion_event_limiter := 0
    mode_origin := (3, 4) }

/-- Fixture for claim C10: window 5 is managed; window 9 is neither managed
nor the root. -/
def c10_wrap : XCBWrap :=
  { managed_windows := [5], root := 0 }

/-! Helper lemmas (shared; none of them is a claim's theorem). -/

/-- Membership in an ordered insertion. -/
theorem mem_insert_sorted {a b : Nat} {l : List Nat} :
    b ∈ insert_sorted a l ↔ b = a ∨ b ∈ l := by
  induction l with
  | nil => simp [insert_sorted]
  | cons c t ih =>
    by_cases hac : a ≤ c
    · simp [insert_sorted, hac]
    · simp [insert_sorted, hac, ih]
      tauto

/-- Sorting preserves membership. -/
theorem mem_sort_atoms {a : Nat} {l : List Nat} : a ∈ sort_atoms l ↔ a ∈ l := by
  induction l with
  | nil => simp [sort_atoms]
  | cons b t ih => simp [sort_atoms, mem_insert_sorted, ih]

/-- Unfolding `dedup_consecutive` on a two-or-more element list. -/
theorem dedup_consecutive_cons_cons (a b : Nat) (t : List Nat) :
    dedup_consecutive (a :: b :: t) =
      if a = b then dedup_consecutive (b :: t) else a :: dedup_consecutive (b :: t) := by
  simp [dedup_consecutive]

/-- Removing consecutive duplicates preserves membership. -/
theorem mem_dedup_consecutive {a : Nat} {l : List Nat} :
    a ∈ dedup_consecutive l ↔ a ∈ l := by
  induction l with
  | nil => simp [dedup_consecutive]
  | cons b t ih =>
    cases t with
    | nil => simp [dedup_consecutive]
    | cons c r =>
      rw [dedup_consecutive_cons_cons]
      by_cases hbc : b = c
      · subst hbc
        rw [if_pos rfl, ih]
        simp
      · rw [if_neg hbc]
        simp [ih]

/-- Filtering with the same predicate twice equals filtering once. -/
theorem filter_ne_idem (l : List Nat) (a : Nat) :
    (l.filter fun w => w ≠ a).filter (fun w => w ≠ a) = l.filter (fun w => w ≠ a) := by
  induction l with
  | nil => rfl
  | cons b t ih => by_cases hb : b = a <;> simp [hb, ih]

/-- The hint decoder never produces a `minw`. -/
theorem get_hint_sizing_minw_none (hint : WmSizeHints) :
    (get_hint_sizing_as_xyhw hint).minw = none := by
  rcases hint with ⟨s, si, ms, mins, pos⟩
  rcases s with _ | ⟨a, b, c⟩ <;> rcases si with _ | ⟨d, e⟩ <;>
    rcases ms with _ | ⟨f, g⟩ <;> rcases mins with _ | ⟨i, j⟩ <;>
    rcases pos with _ | ⟨k, m, n⟩ <;> rfl

/-- A sizing patch without a `minw` never trips the Splash
non-resizability rule. -/
theorem setup_can_resize_of_minw_none (t : WindowType) (s : XyhwChange) (c : Bool)
    (h : s.minw = none) : setup_can_resize t s c = true := by
  rcases s with ⟨sx, sy, sw, sh, sminw, sminh, smaxw, smaxh⟩
  cases sminw with
  | none => cases t <;> rfl
  | some v => simp at h

/-! Claim theorems. -/

/-- Claim C1. The claim says: a map-request on an override-redirect or
already-managed window yields no creation event, and every other
(non-override-redirect, unmanaged) window yields `WindowCreate`. The xcb
backend's guard is inverted (`!attrs.override_redirect || managed`): the
ordinary unmanaged window 5 yields no event and the override-redirect
window 6 yields one — exactly backwards — while the x11rb backend's
`setup_window` behaves as the claim states on the same two windows. -/
theorem c1_setup_window_guard_inverted :
    c1_wrap.setup_window 5 = none ∧
    (c1_wrap.setup_window 6).isSome = true ∧
    (c1_wrap.setup_window_x11rb 5).isSome = true ∧
    c1_wrap.setup_window_x11rb 6 = none := by
  refine ⟨rfl, rfl, rfl, ?_⟩
  decide

/-- Claim C2. The claim says an unrecognized `_NET_WM_STATE` atom is dropped
on decode. The decoder's fall-through arm instead maps it to
`WindowState::Modal`: atom 999 is none of the eleven recognized state atoms,
yet decoding window 5's list `[999]` yields `[Modal]`, not `[]`. -/
theorem c2_unrecognized_atom_decoded_as_modal :
    (999 ∉ [atoms.NET_WM_STATE_MODAL, atoms.NET_WM_STATE_STICKY,
      atoms.NET_WM_STATE_MAXIMIZED_VERT, atoms.NET_WM_STATE_MAXIMIZED_HORZ,
      atoms.NET_WM_STATE_SHADED, atoms.NET_WM_STATE_SKIP_TASKBAR,
      atoms.NET_WM_STATE_SKIP_PAGER, atoms.NET_WM_STATE_HIDDEN,
      atoms.NET_WM_STATE_FULLSCREEN, atoms.NET_WM_STATE_ABOVE,
      atoms.NET_WM_STATE_BELOW]) ∧
    c2_wrap.get_window_states 5 = [WindowState.Modal] := by
  constructor
  · decide
  · rfl

/-- Claim C3. The claim says `kill_window` terminates without panicking,
trying the polite `WM_DELETE` message first and force-killing only when the
capability probe reports no support. In this backend the probe
(`can_send_xevent_atom`) is `unimplemented!()`, so killing any xcb-handled
window panics before either path is taken. -/
theorem c3_kill_window_panics (x : XCBWrap) (w : Nat) :
    x.kill_window (.XCBHandle w) = .panicked "not implemented" := rfl

/-- Claim C4, counterexample. The claim says an arm request for a different
non-root window while a session is already armed is accepted and switches
the target: with the mode armed to move window 1, an arm-to-resize request
for window 2 leaves the mode armed to move window 1 instead of switching. -/
theorem c4_arm_while_armed_not_accepted :
    (c4_wrap.set_mode (.ReadyToResize (.XCBHandle 2))).mode = .ReadyToMove (.XCBHandle 1) ∧
    (c4_wrap.set_mode (.ReadyToResize (.XCBHandle 2))).mode ≠ .ReadyToResize (.XCBHandle 2) := by
  decide

/-- Claim C4, amended: while the mode is anything but Normal, an arm-move or
arm-resize request for any window (root or not) is silently ignored — the
wrapper state is left entirely unchanged — and an arm request targeting the
root window is ignored in every mode. -/
theorem c4_amended_arm_requests_ignored (x : XCBWrap) (h2 : WindowHandle)
    (harm : x.mode ≠ Mode.Normal) :
    x.set_mode (.ReadyToMove h2) = x ∧ x.set_mode (.ReadyToResize h2) = x ∧
    (∀ y : XCBWrap,
      y.set_mode (.ReadyToMove y.get_default_root_handle) = y ∧
      y.set_mode (.ReadyToResize y.get_default_root_handle) = y) := by
  refine ⟨?_, ?_, ?_⟩
  · by_cases hr : h2 = x.get_default_root_handle <;> simp [XCBWrap.set_mode, hr, harm]
  · by_cases hr : h2 = x.get_default_root_handle <;> simp [XCBWrap.set_mode, hr, harm]
  · intro y
    exact ⟨by simp [XCBWrap.set_mode], by simp [XCBWrap.set_mode]⟩

/-- Claim C4, witness for the amended theorem at the armed fixture. -/
theorem c4_amended_witness :
    c4_wrap.mode ≠ Mode.Normal ∧
    (c4_wrap.set_mode (.ReadyToMove (.XCBHandle 2)) = c4_wrap ∧
      c4_wrap.set_mode (.ReadyToResize (.XCBHandle 2)) = c4_wrap ∧
      (∀ y : XCBWrap,
        y.set_mode (.ReadyToMove y.get_default_root_handle) = y ∧
        y.set_mode (.ReadyToResize y.get_default_root_handle) = y)) :=
  ⟨by decide, c4_amended_arm_requests_ignored c4_wrap (.XCBHandle 2) (by decide)⟩

/-- Claim C7. The claim says the restack list is the fullscreen handles,
then exactly the server-known windows in neither list, then the caller's
ordered list, with no handle repeated. The source filters the "unlisted"
segment with `!windows.contains || !fullscreen.contains` (instead of `&&`),
so window 5 — listed by the caller but not fullscreen — also survives the
filter and is restacked twice. -/
theorem c7_restack_window_duplicated :
    from_set_window_order c7_wrap [] [.XCBHandle 5] = [.XCBHandle 5, .XCBHandle 5] ∧
    ¬ (from_set_window_order c7_wrap [] [.XCBHandle 5]).Nodup := by
  constructor
  · rfl
  · decide

/-- Claim C8. Tearing down the same handle twice in a row leaves the managed
registry and the published `_NET_CLIENT_LIST` exactly as the first teardown
left them, for every starting state, handle, and destroyed flag. -/
theorem c8_teardown_idempotent (x : XCBWrap) (h : WindowHandle) (destroyed : Bool) :
    ((x.teardown_managed_window h destroyed).teardown_managed_window h destroyed).managed_windows
        = (x.teardown_managed_window h destroyed).managed_windows ∧
    ((x.teardown_managed_window h destroyed).teardown_managed_window h destroyed).client_list
        = (x.teardown_managed_window h destroyed).client_list := by
  cases h with
  | XCBHandle w =>
    cases destroyed <;>
      simp [XCBWrap.teardown_managed_window, XCBWrap.set_client_list,
        XCBWrap.set_wm_states, XCBWrap.ungrab_buttons, filter_ne_idem]
  | XlibHandle w => exact ⟨rfl, rfl⟩
  | X11rbHandle w => exact ⟨rfl, rfl⟩
  | MockHandle w => exact ⟨rfl, rfl⟩

/-- Claim C6. The claim says a Splash window whose size hints carry equal
present min and max is marked non-resizable unless its action list grants
resize. In the xcb backend the hint decoder stores the min/max sizes into
the patch's `w`/`h` and never populates `minw`/`minh`/`maxw`/`maxh`, so the
Splash rule's non-resizable arm is unreachable: resizability is `true` for
every window, whatever the hints (first conjunct), and in particular for
the claim's Splash window with min = max = (100, 50) and no resize action
(second conjunct) — while the x11rb backend's `setup_window` marks that
same window non-resizable (third conjunct). -/
theorem c6_splash_never_non_resizable :
    (∀ (hint : WmSizeHints) (t : WindowType) (c : Bool),
        setup_can_resize t (get_hint_sizing_as_xyhw hint) c = true) ∧
    (c6_wrap.setup_window 6).map window_create_can_resize = some (some true) ∧
    (c6x_wrap.setup_window_x11rb 6).map window_create_can_resize = some (some false) := by
  refine ⟨?_, ?_, ?_⟩
  · intro hint t c
    exact setup_can_resize_of_minw_none t _ c (get_hint_sizing_minw_none hint)
  · rfl
  · rfl

/-- Claim C9. From a session armed to resize window `h` (non-root) at origin
`o`, a non-throttled motion event at root position `o + (15, 10)` switches
the mode to `ResizingWindow h` and emits `ResizeWindow h 15 10`; and a
return-to-normal action sets the mode to Normal and releases the pointer
grab from every state. -/
theorem c9_resize_sequence (x : XCBWrap) (h ew t : Nat)
    (hmode : x.mode = .ReadyToResize (.XCBHandle h))
    (hroot : h ≠ x.root)
    (hrr : 0 < x.refresh_rate)
    (hth : (U64 + t - x.motion_event_limiter) % U64 > 1000 / x.refresh_rate) :
    (x.from_motion_notify (motion_at_offset x t ew 15 10)).1.mode
        = .ResizingWindow (.XCBHandle h) ∧
    (x.from_motion_notify (motion_at_offset x t ew 15 10)).2
        = some (.ResizeWindow (.XCBHandle h) 15 10) ∧
    (∀ y : XCBWrap,
      (y.set_mode .Normal).mode = .Normal ∧ (y.set_mode .Normal).pointer_grab = none) := by
  have hconj :
      x.refresh_rate > 0 ∧
        (U64 + (motion_at_offset x t ew 15 10).time - x.motion_event_limiter) % U64 >
          1000 / x.refresh_rate := ⟨hrr, hth⟩
  refine ⟨?_, ?_, ?_⟩
  · simp only [XCBWrap.from_motion_notify, if_pos hconj, hmode]
    simp [XCBWrap.set_mode, XCBWrap.get_default_root_handle, hroot, hmode,
      XCBWrap.grab_pointer, XCBWrap.ungrab_pointer]
  · simp only [XCBWrap.from_motion_notify, if_pos hconj, hmode]
    simp [motion_at_offset]
  · intro y
    exact ⟨by simp [XCBWrap.set_mode], by simp [XCBWrap.set_mode, XCBWrap.ungrab_pointer]⟩

/-- Claim C9, witness: the armed fixture, a motion event at time 100 with
offset (15, 10). -/
theorem c9_witness :
    c9_wrap.mode = Mode.ReadyToResize (.XCBHandle 7) ∧ 7 ≠ c9_wrap.root ∧
    0 < c9_wrap.refresh_rate ∧
    (U64 + 100 - c9_wrap.motion_event_limiter) % U64 > 1000 / c9_wrap.refresh_rate ∧
    ((c9_wrap.from_motion_notify (motion_at_offset c9_wrap 100 1 15 10)).1.mode
        = .ResizingWindow (.XCBHandle 7) ∧
      (c9_wrap.from_motion_notify (motion_at_offset c9_wrap 100 1 15 10)).2
        = some (.ResizeWindow (.XCBHandle 7) 15 10) ∧
      (∀ y : XCBWrap,
        (y.set_mode .Normal).mode = .Normal ∧ (y.set_mode .Normal).pointer_grab = none)) :=
  ⟨rfl, by decide, by decide, by decide,
    c9_resize_sequence c9_wrap 7 1 100 rfl (by decide) (by decide) (by decide)⟩

/-- Claim C10. An unmap-notify, destroy-notify, or property-notify event
whose window is unmanaged — the root window included — produces no event and
leaves the wrapper state (in particular the managed registry and the
published client list) entirely unchanged; so does a client message whose
window is, in addition, not the root. -/
theorem c10_unmanaged_events_ignored (x : XCBWrap) (w a ty d0 d1 d2 d3 d4 : Nat)
    (sent sd : Bool) (hw : w ∉ x.managed_windows) :
    x.from_unmap_event sent w = (x, none) ∧
    x.from_destroy_notify w = (x, none) ∧
    property_notify_from_event x ⟨w, a, sd⟩ = (x, none) ∧
    (w ≠ x.root →
      client_message_from_event x ⟨w, ty, d0, d1, d2, d3, d4⟩ = (x, none)) := by
  refine ⟨?_, ?_, ?_, fun hroot => ?_⟩
  · simp [XCBWrap.from_unmap_event, hw]
  · simp [XCBWrap.from_destroy_notify, hw]
  · simp [property_notify_from_event, hw]
  · simp [client_message_from_event, XCBWrap.get_default_root, hw, hroot]

/-- Claim C10, witness: window 9 is not managed by the fixture (and, for the
client-message conjunct's inner hypothesis, not its root either). -/
theorem c10_witness :
    9 ∉ c10_wrap.managed_windows ∧
    (c10_wrap.from_unmap_event true 9 = (c10_wrap, none) ∧
      c10_wrap.from_destroy_notify 9 = (c10_wrap, none) ∧
      property_notify_from_event c10_wrap ⟨9, 300, false⟩ = (c10_wrap, none) ∧
      ((9 : Nat) ≠ c10_wrap.root →
        client_message_from_event c10_wrap ⟨9, 300, 2, 309, 0, 0, 0⟩ = (c10_wrap, none))) :=
  ⟨by decide,
    c10_unmanaged_events_ignored c10_wrap 9 300 300 2 309 0 0 0 true false (by decide)⟩

/-- Claim C5. A `_NET_WM_STATE` client message with toggle action (data word
0 = 2) naming the fullscreen atom, for a managed window, flips the presence
of the fullscreen atom in the window's server-side state list relative to
its prior value, and the translation reports a `WindowChange` whose `states`
field is the full decoded state set read back from the updated list. -/
theorem c5_fullscreen_toggle (x : XCBWrap) (w d2 d3 d4 : Nat)
    (hw : w ∈ x.managed_windows) :
    (atoms.NET_WM_STATE_FULLSCREEN ∈
        (client_message_from_event x (fullscreen_toggle_msg w d2 d3 d4)).1.get_window_states_atoms w
      ↔ atoms.NET_WM_STATE_FULLSCREEN ∉ x.get_window_states_atoms w) ∧
    (client_message_from_event x (fullscreen_toggle_msg w d2 d3 d4)).2 =
      some (.WindowChange
        { handle := .XCBHandle w
          states := some
            ((client_message_from_event x
                (fullscreen_toggle_msg w d2 d3 d4)).1.get_window_states w) }) := by
  have hnr : ¬ (w ∉ x.managed_windows ∧ w ≠ x.get_default_root) := fun hcon => hcon.1 hw
  constructor
  · simp only [client_message_from_event, fullscreen_toggle_msg, if_neg hnr]
    simp only [atoms]
    norm_num [XCBWrap.set_window_states_atoms, XCBWrap.get_window_states_atoms,
      mem_dedup_consecutive, mem_sort_atoms]
    by_cases hc : (300 : Nat) + 9 ∈ x.server.net_wm_state w
    · simp [hc, List.elem_eq_mem, List.mem_filter]
    · simp [hc, List.elem_eq_mem]
  · simp only [client_message_from_event, fullscreen_toggle_msg, if_neg hnr]
    norm_num [atoms]

/-- Claim C5, witness: the managed window 5 of the fixture, whose state list
starts empty. -/
theorem c5_witness :
    5 ∈ c5_wrap.managed_windows ∧
    ((atoms.NET_WM_STATE_FULLSCREEN ∈
        (client_message_from_event c5_wrap
            (fullscreen_toggle_msg 5 0 0 0)).1.get_window_states_atoms 5
      ↔ atoms.NET_WM_STATE_FULLSCREEN ∉ c5_wrap.get_window_states_atoms 5) ∧
    (client_message_from_event c5_wrap (fullscreen_toggle_msg 5 0 0 0)).2 =
      some (.WindowChange
        { handle := .XCBHandle 5
          states := some
            ((client_message_from_event c5_wrap
                (fullscreen_toggle_msg 5 0 0 0)).1.get_window_states 5) })) :=
  ⟨by decide, c5_fullscreen_toggle c5_wrap 5 0 0 0 (by decide)⟩

end LeftWM
